import Mathlib

/-!
Verification of the ContextFitter subsystem of the rag_skills repository:
the context-budgeting and summarization logic that merges retrieved text
chunks into a single context string honoring a hard token budget.

The repository ships the skill implementations in `chatbotSkills.py`
(`combine_docs`, `user_query_based_context_summarization`); that file is
not present in the sources available here, so the component is modelled
from the specification's algorithm description, faithful to its words.
-/

namespace RagSkills

/-- Modelled from the spec: a `ContextChunk` is a unit of retrieved text
considered for inclusion in the prompt context, carrying its estimated
token count (an integer ≥ 0) and an optional relevance score.  Produced by
the external retrieval collaborator; read-only to this core. -/
structure ContextChunk where
  text : String
  estimated_token_count : Nat
  source_relevance_score : Option Float := none

/-- Modelled from the spec: the error taxonomy of `fit`.
`InvalidBudget` for a non-positive budget, `SummarizationUnavailable` when
overflow occurs with no summarizer configured, `SummarizationFailed` when
the summarizer collaborator raised an error. -/
inductive FitError where
  | InvalidBudget
  | SummarizationUnavailable
  | SummarizationFailed
deriving DecidableEq, Repr

/-- Modelled from the spec: provider errors the summarization collaborator
may fail with (rate limit, timeout, content filter). -/
inductive ProviderError where
  | rateLimit
  | timeout
  | contentFilter
deriving DecidableEq, Repr

/-- Modelled from the spec: the output entity `FittedContext`
{ text, used_token_count, truncated, summarized }. -/
structure FittedContext where
  text : String
  used_token_count : Nat
  truncated : Bool
  summarized : Bool
deriving DecidableEq, Repr

/-- Modelled from the spec: the summarization collaborator `summarize_fn`:
`(query, text, target_tokens) -> string`, which may fail with a provider
error. -/
abbrev Summarizer := String → String → Int → Except ProviderError String

/-- Modelled from the spec: the deterministic separator used when
concatenating chunk texts (the spec leaves the choice open but requires a
deterministic, documented policy; a blank line is used here). -/
def chunkSeparator : String := "\n\n"

/-- Modelled from the spec: concatenate chunk texts in the caller-given
order (most relevant first) with the deterministic separator. -/
def joinChunks (chunks : List ContextChunk) : String :=
  String.intercalate chunkSeparator (chunks.map (fun c => c.text))

/-- Modelled from the spec: `total = sum(chunk.estimated_token_count for
chunk in chunks)`. -/
def totalTokens (chunks : List ContextChunk) : Nat :=
  (chunks.map (fun c => c.estimated_token_count)).sum

/-- Split a character list at every space, keeping the space-free pieces
in order (the same word decomposition a split on a single-space separator
produces). -/
def splitOnSpace : List Char → List (List Char)
  | [] => [[]]
  | c :: cs =>
    let r := splitOnSpace cs
    if c = ' ' then [] :: r
    else
      match r with
      | [] => [[c]]
      | w :: ws => (c :: w) :: ws

/-- The words of a text, in order: its characters split at spaces. -/
def wordsOf (text : String) : List String :=
  (splitOnSpace text.toList).map (fun cs => String.mk cs)

/-- Modelled from the spec: the injected token estimator.  Token counts
are estimates from a shared tokenizer capability; it is modelled as a
per-word estimate `wt`, the estimate of a text being the sum over its
words. -/
def estimateTokens (wt : String → Nat) (text : String) : Nat :=
  ((wordsOf text).map wt).sum

/-- Modelled from the spec: keep the longest prefix of words whose
accumulated token estimate stays at or under the budget, stopping at the
first word that would cross the boundary (truncation happens on a
token-estimate basis, not mid-word).  Returns the kept words together with
their accumulated token count. -/
def takeWithinBudget (wt : String → Nat) (budget : Nat) :
    List String → Nat → List String × Nat
  | [], used => ([], used)
  | w :: ws, used =>
    if used + wt w ≤ budget then
      let r := takeWithinBudget wt budget ws (used + wt w)
      (w :: r.1, r.2)
    else ([], used)

/-- Modelled from the spec: hard-truncate a text at the budget boundary on
a token-estimate basis, not mid-word.  Returns the truncated text and its
token estimate. -/
def truncateToBudget (wt : String → Nat) (budget : Nat) (text : String) :
    String × Nat :=
  let r := takeWithinBudget wt budget (wordsOf text) 0
  (String.intercalate " " r.1, r.2)

/-- Modelled from the spec: the `fit` algorithm of ContextFitter, together
with the number of calls made to `summarize_fn` during the invocation
(second component).  Fails with `InvalidBudget` when `budget ≤ 0`.
Otherwise, if `total ≤ budget`, returns the joined chunk texts with
`truncated=false, summarized=false` (this subsumes the empty-chunks case,
which yields `FittedContext("", 0, false, false)`).  On overflow it fails
with `SummarizationUnavailable` when no summarizer was supplied, and
otherwise makes the single call
`summarize_fn(query, joined_text_of_all_chunks, budget)`: a provider error
is propagated as `SummarizationFailed`; a returned text is re-estimated
and either returned unmodified (estimate at or under budget,
`truncated=false`) or hard-truncated at the budget boundary
(`truncated=true`), with `summarized=true` in both cases. -/
def fitCore (wt : String → Nat) (query : String) (chunks : List ContextChunk)
    (budget : Int) (summarize_fn : Option Summarizer) :
    Except FitError FittedContext × Nat :=
  if budget ≤ 0 then
    (Except.error FitError.InvalidBudget, 0)
  else if (totalTokens chunks : Int) ≤ budget then
    (Except.ok ⟨joinChunks chunks, totalTokens chunks, false, false⟩, 0)
  else
    match summarize_fn with
    | none => (Except.error FitError.SummarizationUnavailable, 0)
    | some sfn =>
      match sfn query (joinChunks chunks) budget with
      | Except.error _ => (Except.error FitError.SummarizationFailed, 1)
      | Except.ok summary =>
        if (estimateTokens wt summary : Int) ≤ budget then
          (Except.ok ⟨summary, estimateTokens wt summary, false, true⟩, 1)
        else
          let t := truncateToBudget wt budget.toNat summary
          (Except.ok ⟨t.1, t.2, true, true⟩, 1)

/-- Modelled from the spec: `fit(query, chunks, budget, summarize_fn) ->
FittedContext` (the result of the algorithm, discarding the
instrumentation counter). -/
def fit (wt : String → Nat) (query : String) (chunks : List ContextChunk)
    (budget : Int) (summarize_fn : Option Summarizer) :
    Except FitError FittedContext :=
  (fitCore wt query chunks budget summarize_fn).1

/-- The number of calls `fit` makes to `summarize_fn` during one
invocation. -/
def summarizerCalls (wt : String → Nat) (query : String)
    (chunks : List ContextChunk) (budget : Int)
    (summarize_fn : Option Summarizer) : Nat :=
  (fitCore wt query chunks budget summarize_fn).2

/-- Helper: the accumulated token count produced by `takeWithinBudget`
never exceeds the budget, provided the starting accumulator does not. -/
theorem takeWithinBudget_snd_le (wt : String → Nat) (budget : Nat)
    (ws : List String) (used : Nat) (h : used ≤ budget) :
    (takeWithinBudget wt budget ws used).2 ≤ budget := by
  induction ws generalizing used with
  | nil => simpa [takeWithinBudget] using h
  | cons w ws ih =>
    simp only [takeWithinBudget]
    split
    · exact ih (used + wt w) (by assumption)
    · exact h

/-- Helper: the token count of a truncated text never exceeds the
budget. -/
theorem truncateToBudget_snd_le (wt : String → Nat) (budget : Nat)
    (text : String) : (truncateToBudget wt budget text).2 ≤ budget :=
  takeWithinBudget_snd_le wt budget (wordsOf text) 0 (Nat.zero_le _)

/-- Helper: case equation for `fitCore` on a non-positive budget. -/
theorem fitCore_nonpos (wt : String → Nat) (q : String)
    (chunks : List ContextChunk) (budget : Int) (s : Option Summarizer)
    (hb : budget ≤ 0) :
    fitCore wt q chunks budget s = (Except.error FitError.InvalidBudget, 0) := by
  simp [fitCore, hb]

/-- Helper: case equation for `fitCore` when the chunks fit the budget. -/
theorem fitCore_fits (wt : String → Nat) (q : String)
    (chunks : List ContextChunk) (budget : Int) (s : Option Summarizer)
    (hb : ¬ budget ≤ 0) (hle : (totalTokens chunks : Int) ≤ budget) :
    fitCore wt q chunks budget s =
      (Except.ok ⟨joinChunks chunks, totalTokens chunks, false, false⟩, 0) := by
  simp [fitCore, hb, hle]

/-- Helper: case equation for `fitCore` on overflow with no summarizer. -/
theorem fitCore_overflow_none (wt : String → Nat) (q : String)
    (chunks : List ContextChunk) (budget : Int)
    (hb : ¬ budget ≤ 0) (hgt : ¬ (totalTokens chunks : Int) ≤ budget) :
    fitCore wt q chunks budget none =
      (Except.error FitError.SummarizationUnavailable, 0) := by
  simp [fitCore, hb, hgt]

/-- Helper: case equation for `fitCore` on overflow when the summarizer
fails with a provider error. -/
theorem fitCore_overflow_err (wt : String → Nat) (q : String)
    (chunks : List ContextChunk) (budget : Int) (sfn : Summarizer)
    (e : ProviderError)
    (hb : ¬ budget ≤ 0) (hgt : ¬ (totalTokens chunks : Int) ≤ budget)
    (hs : sfn q (joinChunks chunks) budget = Except.error e) :
    fitCore wt q chunks budget (some sfn) =
      (Except.error FitError.SummarizationFailed, 1) := by
  simp [fitCore, hb, hgt, hs]

/-- Helper: case equation for `fitCore` on overflow when the summarizer
returns a text whose estimate is at or under budget. -/
theorem fitCore_overflow_ok_le (wt : String → Nat) (q : String)
    (chunks : List ContextChunk) (budget : Int) (sfn : Summarizer)
    (summary : String)
    (hb : ¬ budget ≤ 0) (hgt : ¬ (totalTokens chunks : Int) ≤ budget)
    (hs : sfn q (joinChunks chunks) budget = Except.ok summary)
    (hest : (estimateTokens wt summary : Int) ≤ budget) :
    fitCore wt q chunks budget (some sfn) =
      (Except.ok ⟨summary, estimateTokens wt summary, false, true⟩, 1) := by
  simp [fitCore, hb, hgt, hs, hest]

/-- Helper: case equation for `fitCore` on overflow when the summarizer
returns a text whose estimate is still over budget. -/
theorem fitCore_overflow_ok_gt (wt : String → Nat) (q : String)
    (chunks : List ContextChunk) (budget : Int) (sfn : Summarizer)
    (summary : String)
    (hb : ¬ budget ≤ 0) (hgt : ¬ (totalTokens chunks : Int) ≤ budget)
    (hs : sfn q (joinChunks chunks) budget = Except.ok summary)
    (hest : ¬ (estimateTokens wt summary : Int) ≤ budget) :
    fitCore wt q chunks budget (some sfn) =
      (Except.ok ⟨(truncateToBudget wt budget.toNat summary).1,
                  (truncateToBudget wt budget.toNat summary).2, true, true⟩, 1) := by
  simp [fitCore, hb, hgt, hs, hest]

/-- C1: for every call of `fit` with a positive budget that returns a
`FittedContext` (including on the overflow/summarization path), the
returned context satisfies `used_token_count ≤ budget`. -/
theorem fit_used_le_budget (wt : String → Nat) (q : String)
    (chunks : List ContextChunk) (budget : Int) (s : Option Summarizer)
    (fc : FittedContext) (hpos : 0 < budget)
    (hfit : fit wt q chunks budget s = Except.ok fc) :
    (fc.used_token_count : Int) ≤ budget := by
  have hb : ¬ budget ≤ 0 := not_le.mpr hpos
  by_cases hle : (totalTokens chunks : Int) ≤ budget
  · rw [fit, fitCore_fits wt q chunks budget s hb hle] at hfit
    injection hfit with h
    subst h
    simpa using hle
  · cases s with
    | none =>
      rw [fit, fitCore_overflow_none wt q chunks budget hb hle] at hfit
      exact absurd hfit (by simp)
    | some sfn =>
      cases hs : sfn q (joinChunks chunks) budget with
      | error e =>
        rw [fit, fitCore_overflow_err wt q chunks budget sfn e hb hle hs] at hfit
        exact absurd hfit (by simp)
      | ok summary =>
        by_cases hest : (estimateTokens wt summary : Int) ≤ budget
        · rw [fit,
            fitCore_overflow_ok_le wt q chunks budget sfn summary hb hle hs hest]
            at hfit
          injection hfit with h
          subst h
          simpa using hest
        · rw [fit,
            fitCore_overflow_ok_gt wt q chunks budget sfn summary hb hle hs hest]
            at hfit
          injection hfit with h
          subst h
          have h1 : (truncateToBudget wt budget.toNat summary).2 ≤
              budget.toNat := truncateToBudget_snd_le wt budget.toNat summary
          have h2 : ((budget.toNat : Nat) : Int) = budget :=
            Int.toNat_of_nonneg (le_of_lt hpos)
          calc ((truncateToBudget wt budget.toNat summary).2 : Int)
              ≤ (budget.toNat : Int) := by exact_mod_cast h1
            _ = budget := h2

/-- Witness for C1 at a concrete input. -/
theorem fit_used_le_budget_witness :
    (({ text := "a", used_token_count := 3, truncated := false,
        summarized := false } : FittedContext).used_token_count : Int) ≤ 5 :=
  fit_used_le_budget (fun _ => 1) "q" [⟨"a", 3, none⟩] 5 none
    ⟨"a", 3, false, false⟩ (by decide) (by rfl)

/-- Helper: on the overflow path with a summarizer supplied, exactly one
summarizer call is made, whatever the summarizer's outcome. -/
theorem summarizerCalls_overflow_some (wt : String → Nat) (q : String)
    (chunks : List ContextChunk) (budget : Int) (sfn : Summarizer)
    (hb : ¬ budget ≤ 0) (hgt : ¬ (totalTokens chunks : Int) ≤ budget) :
    summarizerCalls wt q chunks budget (some sfn) = 1 := by
  cases hs : sfn q (joinChunks chunks) budget with
  | error e =>
    rw [summarizerCalls, fitCore_overflow_err wt q chunks budget sfn e hb hgt hs]
  | ok summary =>
    by_cases hest : (estimateTokens wt summary : Int) ≤ budget
    · rw [summarizerCalls,
        fitCore_overflow_ok_le wt q chunks budget sfn summary hb hgt hs hest]
    · rw [summarizerCalls,
        fitCore_overflow_ok_gt wt q chunks budget sfn summary hb hgt hs hest]

/-- C2: when the chunk token estimates sum to at most the (positive)
budget, `fit` returns the chunk texts concatenated in the caller-given
order with the deterministic separator, `used_token_count` equal to that
sum, `truncated=false`, `summarized=false`, and the summarizer is not
invoked. -/
theorem fit_no_overflow_concat (wt : String → Nat) (q : String)
    (chunks : List ContextChunk) (budget : Int) (s : Option Summarizer)
    (hpos : 0 < budget) (hle : (totalTokens chunks : Int) ≤ budget) :
    fit wt q chunks budget s =
      Except.ok ⟨joinChunks chunks, totalTokens chunks, false, false⟩ ∧
    summarizerCalls wt q chunks budget s = 0 := by
  have hb : ¬ budget ≤ 0 := not_le.mpr hpos
  constructor
  · rw [fit, fitCore_fits wt q chunks budget s hb hle]
  · rw [summarizerCalls, fitCore_fits wt q chunks budget s hb hle]

/-- Witness for C2 at the spec's concrete scenario: two chunks of 6 and 5
estimated tokens under a budget of 20. -/
theorem fit_no_overflow_concat_witness :
    fit (fun _ => 1) "q"
      [⟨"Earth from orbit looks blue", 6, none⟩,
       ⟨"Explorer 1 launched 1958", 5, none⟩] 20 none =
      Except.ok ⟨joinChunks
        [⟨"Earth from orbit looks blue", 6, none⟩,
         ⟨"Explorer 1 launched 1958", 5, none⟩],
        totalTokens
        [⟨"Earth from orbit looks blue", 6, none⟩,
         ⟨"Explorer 1 launched 1958", 5, none⟩], false, false⟩ ∧
    summarizerCalls (fun _ => 1) "q"
      [⟨"Earth from orbit looks blue", 6, none⟩,
       ⟨"Explorer 1 launched 1958", 5, none⟩] 20 none = 0 :=
  fit_no_overflow_concat (fun _ => 1) "q"
    [⟨"Earth from orbit looks blue", 6, none⟩,
     ⟨"Explorer 1 launched 1958", 5, none⟩] 20 none
    (by decide) (by decide)

/-- C3: for every positive budget, `fit` on an empty chunk sequence
succeeds and returns `FittedContext("", 0, false, false)`. -/
theorem fit_empty_chunks (wt : String → Nat) (q : String) (budget : Int)
    (s : Option Summarizer) (hpos : 0 < budget) :
    fit wt q [] budget s = Except.ok ⟨"", 0, false, false⟩ := by
  have hb : ¬ budget ≤ 0 := not_le.mpr hpos
  have hle : (totalTokens ([] : List ContextChunk) : Int) ≤ budget := by
    simpa [totalTokens] using le_of_lt hpos
  rw [fit, fitCore_fits wt q [] budget s hb hle]
  rfl

/-- Witness for C3 at a concrete input. -/
theorem fit_empty_chunks_witness :
    fit (fun _ => 1) "q" [] 7 none = Except.ok ⟨"", 0, false, false⟩ :=
  fit_empty_chunks (fun _ => 1) "q" 7 none (by decide)

/-- C4: for every budget ≤ 0 and every chunk sequence (including the
empty one), `fit` fails with `InvalidBudget` and returns no
`FittedContext`. -/
theorem fit_invalid_budget (wt : String → Nat) (q : String)
    (chunks : List ContextChunk) (budget : Int) (s : Option Summarizer)
    (hb : budget ≤ 0) :
    fit wt q chunks budget s = Except.error FitError.InvalidBudget := by
  rw [fit, fitCore_nonpos wt q chunks budget s hb]

/-- Witness for C4 at a concrete input. -/
theorem fit_invalid_budget_witness :
    fit (fun _ => 1) "q" [] 0 none = Except.error FitError.InvalidBudget :=
  fit_invalid_budget (fun _ => 1) "q" [] 0 none (by decide)

/-- C5: for every positive budget and chunk sequence whose token
estimates sum to more than the budget, `fit` with no summarizer fails
with `SummarizationUnavailable` rather than silently truncating. -/
theorem fit_overflow_no_summarizer (wt : String → Nat) (q : String)
    (chunks : List ContextChunk) (budget : Int) (hpos : 0 < budget)
    (hgt : budget < (totalTokens chunks : Int)) :
    fit wt q chunks budget none =
      Except.error FitError.SummarizationUnavailable := by
  rw [fit, fitCore_overflow_none wt q chunks budget
    (not_le.mpr hpos) (not_le.mpr hgt)]

/-- Witness for C5 at a concrete input. -/
theorem fit_overflow_no_summarizer_witness :
    fit (fun _ => 1) "q" [⟨"a", 5, none⟩] 3 none =
      Except.error FitError.SummarizationUnavailable :=
  fit_overflow_no_summarizer (fun _ => 1) "q" [⟨"a", 5, none⟩] 3
    (by decide) (by decide)

/-- C6: on overflow with a summarizer supplied, if the re-estimated token
count of the summarizer's text exceeds the budget then `fit`
hard-truncates it at the budget boundary on a token-estimate basis and
returns `truncated=true` with `used_token_count ≤ budget`; if the
re-estimate is at or under the budget, the summarizer's text is returned
unmodified with `truncated=false`. -/
theorem fit_overflow_truncation (wt : String → Nat) (q : String)
    (chunks : List ContextChunk) (budget : Int) (sfn : Summarizer)
    (summary : String) (hpos : 0 < budget)
    (hgt : budget < (totalTokens chunks : Int))
    (hs : sfn q (joinChunks chunks) budget = Except.ok summary) :
    (budget < (estimateTokens wt summary : Int) →
      fit wt q chunks budget (some sfn) =
        Except.ok ⟨(truncateToBudget wt budget.toNat summary).1,
                   (truncateToBudget wt budget.toNat summary).2, true, true⟩ ∧
      ((truncateToBudget wt budget.toNat summary).2 : Int) ≤ budget) ∧
    ((estimateTokens wt summary : Int) ≤ budget →
      fit wt q chunks budget (some sfn) =
        Except.ok ⟨summary, estimateTokens wt summary, false, true⟩) := by
  have hb : ¬ budget ≤ 0 := not_le.mpr hpos
  have hgt' : ¬ (totalTokens chunks : Int) ≤ budget := not_le.mpr hgt
  constructor
  · intro hover
    constructor
    · rw [fit, fitCore_overflow_ok_gt wt q chunks budget sfn summary hb hgt' hs
        (not_le.mpr hover)]
    · have h1 : (truncateToBudget wt budget.toNat summary).2 ≤ budget.toNat :=
        truncateToBudget_snd_le wt budget.toNat summary
      have h2 : ((budget.toNat : Nat) : Int) = budget :=
        Int.toNat_of_nonneg (le_of_lt hpos)
      calc ((truncateToBudget wt budget.toNat summary).2 : Int)
          ≤ (budget.toNat : Int) := by exact_mod_cast h1
        _ = budget := h2
  · intro hunder
    rw [fit, fitCore_overflow_ok_le wt q chunks budget sfn summary hb hgt' hs
      hunder]

/-- Witness for C6 at a concrete input: one 500-token chunk, budget 100,
summarizer returning a three-word text whose estimate (3) is under
budget. -/
theorem fit_overflow_truncation_witness :
    (((100 : Int) < (estimateTokens (fun _ => 1) "one two three" : Int) →
      fit (fun _ => 1) "q" [⟨"big", 500, none⟩] 100
          (some (fun _ _ _ => Except.ok "one two three")) =
        Except.ok ⟨(truncateToBudget (fun _ => 1) (100 : Int).toNat
                      "one two three").1,
                   (truncateToBudget (fun _ => 1) (100 : Int).toNat
                      "one two three").2, true, true⟩ ∧
      ((truncateToBudget (fun _ => 1) (100 : Int).toNat "one two three").2 :
          Int) ≤ 100) ∧
    ((estimateTokens (fun _ => 1) "one two three" : Int) ≤ 100 →
      fit (fun _ => 1) "q" [⟨"big", 500, none⟩] 100
          (some (fun _ _ _ => Except.ok "one two three")) =
        Except.ok ⟨"one two three",
          estimateTokens (fun _ => 1) "one two three", false, true⟩)) :=
  fit_overflow_truncation (fun _ => 1) "q" [⟨"big", 500, none⟩] 100
    (fun _ _ _ => Except.ok "one two three") "one two three"
    (by decide) (by decide) (by rfl)

/-- C7: for every successful call of `fit`, the returned context has
`summarized=true` exactly when the summarization path was invoked: the
chunk estimates overflowed the budget and `summarize_fn` was called
(once), regardless of whether truncation was additionally applied. -/
theorem fit_summarized_iff_overflow (wt : String → Nat) (q : String)
    (chunks : List ContextChunk) (budget : Int) (s : Option Summarizer)
    (fc : FittedContext)
    (hfit : fit wt q chunks budget s = Except.ok fc) :
    (fc.summarized = true ↔
      budget < (totalTokens chunks : Int) ∧
      summarizerCalls wt q chunks budget s = 1) := by
  by_cases hb : budget ≤ 0
  · rw [fit, fitCore_nonpos wt q chunks budget s hb] at hfit
    exact absurd hfit (by simp)
  by_cases hle : (totalTokens chunks : Int) ≤ budget
  · rw [fit, fitCore_fits wt q chunks budget s hb hle] at hfit
    injection hfit with h
    subst h
    simp only [Bool.false_eq_true, false_iff, not_and]
    intro hlt
    exact absurd hlt (not_lt.mpr hle)
  · cases s with
    | none =>
      rw [fit, fitCore_overflow_none wt q chunks budget hb hle] at hfit
      exact absurd hfit (by simp)
    | some sfn =>
      have hcalls : summarizerCalls wt q chunks budget (some sfn) = 1 :=
        summarizerCalls_overflow_some wt q chunks budget sfn hb hle
      cases hs : sfn q (joinChunks chunks) budget with
      | error e =>
        rw [fit, fitCore_overflow_err wt q chunks budget sfn e hb hle hs]
          at hfit
        exact absurd hfit (by simp)
      | ok summary =>
        by_cases hest : (estimateTokens wt summary : Int) ≤ budget
        · rw [fit,
            fitCore_overflow_ok_le wt q chunks budget sfn summary hb hle hs
              hest] at hfit
          injection hfit with h
          subst h
          simpa using ⟨not_le.mp hle, hcalls⟩
        · rw [fit,
            fitCore_overflow_ok_gt wt q chunks budget sfn summary hb hle hs
              hest] at hfit
          injection hfit with h
          subst h
          simpa using ⟨not_le.mp hle, hcalls⟩

/-- Witness for C7 at a concrete input: overflow with a summarizer whose
output fits the budget, so the returned context has `summarized=true`. -/
theorem fit_summarized_iff_overflow_witness :
    (({ text := "a b", used_token_count := 2, truncated := false,
        summarized := true } : FittedContext).summarized = true ↔
      (3 : Int) < (totalTokens [⟨"c", 5, none⟩] : Int) ∧
      summarizerCalls (fun _ => 1) "q" [⟨"c", 5, none⟩] 3
        (some (fun _ _ _ => Except.ok "a b")) = 1) :=
  fit_summarized_iff_overflow (fun _ => 1) "q" [⟨"c", 5, none⟩] 3
    (some (fun _ _ _ => Except.ok "a b")) ⟨"a b", 2, false, true⟩ (by rfl)

/-- C8: `fit` is deterministic and stateless: two calls with identical
query, chunks, budget and (deterministic) summarizer yield identical
`FittedContext` results, with no dependence on state from earlier
calls. -/
theorem fit_deterministic (wt : String → Nat) (q : String)
    (chunks : List ContextChunk) (budget : Int) (s : Option Summarizer)
    (r₁ r₂ : Except FitError FittedContext)
    (h₁ : fit wt q chunks budget s = r₁)
    (h₂ : fit wt q chunks budget s = r₂) : r₁ = r₂ :=
  h₁.symm.trans h₂

/-- Witness for C8 at a concrete input. -/
theorem fit_deterministic_witness :
    (Except.ok ⟨"", 0, false, false⟩ : Except FitError FittedContext) =
      Except.ok ⟨"", 0, false, false⟩ :=
  fit_deterministic (fun _ => 1) "q" [] 5 none
    (Except.ok ⟨"", 0, false, false⟩) (Except.ok ⟨"", 0, false, false⟩)
    (by rfl) (by rfl)

/-- C9: during a single invocation, `fit` calls `summarize_fn` at most
once: zero times when the budget is non-positive or the chunk estimates
fit the budget (hence also for empty chunks), and exactly once on the
overflow path with a summarizer supplied, even when the summarizer's
output is over budget or the summarizer fails. -/
theorem fit_summarizer_calls_at_most_once (wt : String → Nat) (q : String)
    (chunks : List ContextChunk) (budget : Int) (s : Option Summarizer) :
    summarizerCalls wt q chunks budget s ≤ 1 ∧
    (budget ≤ 0 → summarizerCalls wt q chunks budget s = 0) ∧
    (0 < budget → (totalTokens chunks : Int) ≤ budget →
      summarizerCalls wt q chunks budget s = 0) ∧
    (∀ sfn : Summarizer, 0 < budget →
      budget < (totalTokens chunks : Int) →
      summarizerCalls wt q chunks budget (some sfn) = 1) := by
  refine ⟨?_, ?_, ?_, ?_⟩
  · by_cases hb : budget ≤ 0
    · rw [summarizerCalls, fitCore_nonpos wt q chunks budget s hb]
      exact Nat.zero_le 1
    by_cases hle : (totalTokens chunks : Int) ≤ budget
    · rw [summarizerCalls, fitCore_fits wt q chunks budget s hb hle]
      exact Nat.zero_le 1
    cases s with
    | none =>
      rw [summarizerCalls, fitCore_overflow_none wt q chunks budget hb hle]
      exact Nat.zero_le 1
    | some sfn =>
      rw [summarizerCalls_overflow_some wt q chunks budget sfn hb hle]
  · intro hb
    rw [summarizerCalls, fitCore_nonpos wt q chunks budget s hb]
  · intro hpos hle
    rw [summarizerCalls, fitCore_fits wt q chunks budget s
      (not_le.mpr hpos) hle]
  · intro sfn hpos hgt
    exact summarizerCalls_overflow_some wt q chunks budget sfn
      (not_le.mpr hpos) (not_le.mpr hgt)

/-- Witness for C9 at a concrete input. -/
theorem fit_summarizer_calls_at_most_once_witness :
    summarizerCalls (fun _ => 1) "q" [⟨"c", 5, none⟩] 3 none ≤ 1 ∧
    ((3 : Int) ≤ 0 →
      summarizerCalls (fun _ => 1) "q" [⟨"c", 5, none⟩] 3 none = 0) ∧
    ((0 : Int) < 3 → (totalTokens [⟨"c", 5, none⟩] : Int) ≤ 3 →
      summarizerCalls (fun _ => 1) "q" [⟨"c", 5, none⟩] 3 none = 0) ∧
    (∀ sfn : Summarizer, (0 : Int) < 3 →
      (3 : Int) < (totalTokens [⟨"c", 5, none⟩] : Int) →
      summarizerCalls (fun _ => 1) "q" [⟨"c", 5, none⟩] 3 (some sfn) = 1) :=
  fit_summarizer_calls_at_most_once (fun _ => 1) "q" [⟨"c", 5, none⟩] 3 none

/-- C10: on overflow, when the supplied summarizer fails with a provider
error, `fit` propagates the failure as `SummarizationFailed` and returns
no `FittedContext` from that call. -/
theorem fit_summarizer_failure_propagates (wt : String → Nat) (q : String)
    (chunks : List ContextChunk) (budget : Int) (sfn : Summarizer)
    (e : ProviderError) (hpos : 0 < budget)
    (hgt : budget < (totalTokens chunks : Int))
    (hs : sfn q (joinChunks chunks) budget = Except.error e) :
    fit wt q chunks budget (some sfn) =
      Except.error FitError.SummarizationFailed := by
  rw [fit, fitCore_overflow_err wt q chunks budget sfn e
    (not_le.mpr hpos) (not_le.mpr hgt) hs]

/-- Witness for C10 at a concrete input: the summarizer fails with a
timeout. -/
theorem fit_summarizer_failure_propagates_witness :
    fit (fun _ => 1) "q" [⟨"c", 5, none⟩] 3
        (some (fun _ _ _ => Except.error ProviderError.timeout)) =
      Except.error FitError.SummarizationFailed :=
  fit_summarizer_failure_propagates (fun _ => 1) "q" [⟨"c", 5, none⟩] 3
    (fun _ _ _ => Except.error ProviderError.timeout) ProviderError.timeout
    (by decide) (by decide) (by rfl)

end RagSkills
